import Mathlib

/-!
Verification of the CCMpredPy parameter-estimation core.

This file gives a shallow embedding of the pieces of the repository that the
checked properties are about:

* the padded pseudo-likelihood parameter codec
  (`ccmpred/objfun/pll/__init__.py`: `structured_to_linear`,
  `linear_to_structured`, and the padded sizes computed in
  `PseudoLikelihood.__init__`),
* `PseudoLikelihood.init_from_raw`,
* the contrastive-divergence objective
  (`ccmpred/objfun/cd/__init__.py`: the sample-size selection in
  `ContrastiveDivergence.__init__`, the gradient pipeline of `evaluate`,
  the column-1 sanity check, and the Gibbs-step clamping),
* the average-product correction (`ccmpred/io/contactmatrix.py`: `apc`).

Numpy arrays are embedded as total functions from natural-number indices to
scalars; the logical index region is stated explicitly in the theorems.
Sequential numpy slice assignments are embedded as function overrides applied
in program order.  Scalars are kept generic (any type with the algebraic
structure the code uses), so the theorems cover the real-valued case.
-/

section PLLCodec

variable {α : Type} [Zero α]

/-- Embeds `self.nsingle = self.ncol * 20` (pll/__init__.py line 24). -/
def nsingle (ncol : Nat) : Nat := ncol * 20

/-- Embeds `self.nsingle_padded = self.nsingle + 32 - (self.nsingle % 32)`
(pll/__init__.py line 25; recomputed identically in `linear_to_structured`
and `structured_to_linear`). -/
def nsingle_padded (ncol : Nat) : Nat :=
  nsingle ncol + 32 - (nsingle ncol % 32)

/-- Embeds `self.nvar = self.nsingle_padded + self.ncol * self.ncol * 21 * 32`
(pll/__init__.py line 26). -/
def nvar (ncol : Nat) : Nat := nsingle_padded ncol + ncol * ncol * 21 * 32

/-- Flat offset, inside the packed pair block, of the cell of the stored
tensor of shape `(21, ncol, 32, ncol)` with (row-major) indices
`[d0, d1, d2, d3]`. -/
def pairOffset (ncol d0 d1 d2 d3 : Nat) : Nat :=
  ((d0 * ncol + d1) * 32 + d2) * ncol + d3

/-- Embeds `structured_to_linear(x_single, x_pair)` (pll/__init__.py lines 98-112).
The packed vector is the function from flat index to value:
* indices below `nsingle` hold `x_single.reshape(-1)`;
* indices in the padding region hold `0`;
* the tail holds `out_x_pair.reshape(-1)`, where `out_x_pair` has shape
  `(21, ncol, 32, ncol)`, is zero-initialised, and
  `out_x_pair[:, :, :21, :] = np.transpose(x_pair, (3, 1, 2, 0))`, i.e.
  `out_x_pair[d0, d1, d2, d3] = x_pair[d3, d1, d2, d0]` for `d2 < 21`. -/
def structured_to_linear (ncol : Nat) (x_single : Nat → Nat → α)
    (x_pair : Nat → Nat → Nat → Nat → α) : Nat → α :=
  fun k =>
    if k < nsingle ncol then x_single (k / 20) (k % 20)
    else if k < nsingle_padded ncol then 0
    else
      let m := k - nsingle_padded ncol
      let d0 := m / (ncol * (32 * ncol))
      let r1 := m % (ncol * (32 * ncol))
      let d1 := r1 / (32 * ncol)
      let r2 := r1 % (32 * ncol)
      let d2 := r2 / ncol
      let d3 := r2 % ncol
      if d2 < 21 then x_pair d3 d1 d2 d0 else 0

/-- Single-tensor half of `linear_to_structured(x, ncol)`
(pll/__init__.py line 89): `x_single = x[:nsingle].reshape((ncol, 20))`,
so `x_single[i, a] = x[i * 20 + a]`. -/
def lts_single (x : Nat → α) : Nat → Nat → α :=
  fun i a => x (i * 20 + a)

/-- Pair-tensor half of `linear_to_structured(x, ncol, clip=True)`
(pll/__init__.py lines 90-93):
`x_pair = np.transpose(x[nsingle_padded:].reshape((21, ncol, 32, ncol)), (3, 1, 2, 0))`
then clipped to `[:, :, :21, :21]`; hence
`x_pair[i, j, a, b] = x[nsingle_padded + offset(b, j, a, i)]`
on the clipped region. -/
def lts_pair (ncol : Nat) (x : Nat → α) : Nat → Nat → Nat → Nat → α :=
  fun i j a b => x (nsingle_padded ncol + pairOffset ncol b j a i)

end PLLCodec

/-- Concrete integer single tensor used to instantiate codec theorems. -/
def xs0 : Nat → Nat → ℤ := fun i a => (i : ℤ) * 100 + (a : ℤ)

/-- Concrete integer pair tensor used to instantiate codec theorems: a
single 1 at logical position `(0, 1, 0, 0)`, zero elsewhere (in particular
not symmetric, and zero on the diagonal). -/
def xp0 : Nat → Nat → Nat → Nat → ℤ :=
  fun i j a b => if i = 0 ∧ j = 1 ∧ a = 0 ∧ b = 0 then 1 else 0

section CDDefs

variable {α : Type} [LinearOrderedField α]

/-- Slice assignment `g[:, 20] = 0` on a single-tensor
(cd/__init__.py lines 61 and 148). -/
def zeroGapSingle (g : Nat → Nat → α) : Nat → Nat → α :=
  fun i a => if a = 20 then 0 else g i a

/-- Slice assignment `g[:, :, :, 20] = 0` on a pair-tensor
(cd/__init__.py lines 62 and 149). -/
def zeroGapPairB (g : Nat → Nat → Nat → Nat → α) : Nat → Nat → Nat → Nat → α :=
  fun i j a b => if b = 20 then 0 else g i j a b

/-- Slice assignment `g[:, :, 20, :] = 0` on a pair-tensor
(cd/__init__.py lines 63 and 150). -/
def zeroGapPairA (g : Nat → Nat → Nat → Nat → α) : Nat → Nat → Nat → Nat → α :=
  fun i j a b => if a = 20 then 0 else g i j a b

/-- Loop `for i in range(ncol): g_pair[i, i, :, :] = 0`
(cd/__init__.py lines 152-153). -/
def zeroDiagPair (ncol : Nat) (g : Nat → Nat → Nat → Nat → α) :
    Nat → Nat → Nat → Nat → α :=
  fun i j a b => if i < ncol ∧ i = j then 0 else g i j a b

/-- Embeds `self.msa_counts_single = self.freqs_single * self.neff` followed by the
gap-count reset `self.msa_counts_single[:, 20] = 0`
(cd/__init__.py lines 57 and 61). -/
def msa_counts_single (freqs_single : Nat → Nat → α) (neff : α) :
    Nat → Nat → α :=
  zeroGapSingle (fun i a => freqs_single i a * neff)

/-- Embeds `self.msa_counts_pair = self.freqs_pair * self.neff` followed by the
gap-count resets on both symbol axes (cd/__init__.py lines 58 and 62-63). -/
def msa_counts_pair (freqs_pair : Nat → Nat → Nat → Nat → α) (neff : α) :
    Nat → Nat → Nat → Nat → α :=
  zeroGapPairA (zeroGapPairB (fun i j a b => freqs_pair i j a b * neff))

/-- Embeds `self.Ni = self.msa_counts_single.sum(1)` (cd/__init__.py line 66):
non-gapped per-column counts, a sum over the 21 symbol states. -/
def Ni (mcs : Nat → Nat → α) : Nat → α :=
  fun i => ∑ a in Finset.range 21, mcs i a

/-- Embeds `self.Nij = self.msa_counts_pair.sum(3).sum(2)` (cd/__init__.py line 67). -/
def Nij (mcp : Nat → Nat → Nat → Nat → α) : Nat → Nat → α :=
  fun i j => ∑ a in Finset.range 21, ∑ b in Finset.range 21, mcp i j a b

/-- Embeds `sample_counts_single = sampled_freq_single * self.Ni[:, np.newaxis]`
(cd/__init__.py line 136). -/
def sample_counts_single (sampled_freq_single : Nat → Nat → α) (ni : Nat → α) :
    Nat → Nat → α :=
  fun i a => sampled_freq_single i a * ni i

/-- Embeds `sample_counts_pair = sampled_freq_pair * self.Nij[:, :, np.newaxis, np.newaxis]`
(cd/__init__.py line 137). -/
def sample_counts_pair (sampled_freq_pair : Nat → Nat → Nat → Nat → α)
    (nij : Nat → Nat → α) : Nat → Nat → Nat → Nat → α :=
  fun i j a b => sampled_freq_pair i j a b * nij i j

/-- The single gradient of `ContrastiveDivergence.evaluate`:
`g_single = sample_counts_single - self.msa_counts_single` followed by
`g_single[:, 20] = 0` (cd/__init__.py lines 140 and 148). -/
def cd_g_single (scs mcs : Nat → Nat → α) : Nat → Nat → α :=
  zeroGapSingle (fun i a => scs i a - mcs i a)

/-- The pair gradient of `ContrastiveDivergence.evaluate`:
`g_pair = sample_counts_pair - self.msa_counts_pair` followed by the
gap-state resets and the diagonal-block reset, in program order
(cd/__init__.py lines 141 and 149-153). -/
def cd_g_pair (ncol : Nat) (scp mcp : Nat → Nat → Nat → Nat → α) :
    Nat → Nat → Nat → Nat → α :=
  zeroDiagPair ncol (zeroGapPairA (zeroGapPairB
    (fun i j a b => scp i j a b - mcp i j a b)))

/-- The sanity check of `ContrastiveDivergence.evaluate`
(cd/__init__.py lines 144-145): a warning is printed when
`np.abs(np.sum(sample_counts_single[1, :20]) - np.sum(self.msa_counts_single[1, :20])) > 1e-5`.
The inspected column index is the literal `1`. -/
def cd_warning (scs mcs : Nat → Nat → α) : Bool :=
  decide ((1 : α) / 100000 <
    |(∑ a in Finset.range 20, scs 1 a) - ∑ a in Finset.range 20, mcs 1 a|)

/-- What one call of `ContrastiveDivergence.evaluate` produces: the scalar
objective value, whether the sanity-check warning was printed, and the four
returned gradient tensors (raw and regularization, in structured form —
the code immediately packs them with the no-padding codec before
returning). -/
structure CDResult (α : Type) where
  value : α
  warning : Bool
  g_single : Nat → Nat → α
  g_pair : Nat → Nat → Nat → Nat → α
  g_reg_single : Nat → Nat → α
  g_reg_pair : Nat → Nat → Nat → Nat → α

/-- Embeds `ContrastiveDivergence.evaluate` (cd/__init__.py lines 112-163), with
the external collaborators given as inputs: `freqs_single` / `freqs_pair`
and `neff` come from the pseudocount engine at construction time;
`sampled_freq_single` / `sampled_freq_pair` are the degapped frequencies of
the Gibbs-sampled sub-alignment (the sampler lives in a C extension and the
`PseudoCounts` module, both outside the objective); `g_reg_single` /
`g_reg_pair` are produced by `self.regularization`.  The body computes the
empirical and sampled counts, subtracts them, applies the gap-state and
diagonal resets, and returns the fixed sentinel `-1` as the value. -/
def cd_evaluate (ncol : Nat) (freqs_single : Nat → Nat → α)
    (freqs_pair : Nat → Nat → Nat → Nat → α) (neff : α)
    (sampled_freq_single : Nat → Nat → α)
    (sampled_freq_pair : Nat → Nat → Nat → Nat → α)
    (g_reg_single : Nat → Nat → α)
    (g_reg_pair : Nat → Nat → Nat → Nat → α) : CDResult α :=
  let mcs := msa_counts_single freqs_single neff
  let mcp := msa_counts_pair freqs_pair neff
  let scs := sample_counts_single sampled_freq_single (Ni mcs)
  let scp := sample_counts_pair sampled_freq_pair (Nij mcp)
  { value := -1
    warning := cd_warning scs mcs
    g_single := cd_g_single scs mcs
    g_pair := cd_g_pair ncol scp mcp
    g_reg_single := g_reg_single
    g_reg_pair := g_reg_pair }

end CDDefs

/-- Subsample-size selection of `ContrastiveDivergence.__init__`
(cd/__init__.py lines 70-80): the default is all `nrow` rows; with
`sample_size > 0` and `sample_ref == "L"` it is `int(sample_size * ncol)`
clamped to `nrow`; with any other `sample_ref` it is
`max(10, int(sample_size * neff))`, with no clamp.  `evaluate` then draws
this many distinct rows via
`np.random.choice(self.nrow, self.nr_seq_sample, replace=False)`
(cd/__init__.py line 99), which requires `nr_seq_sample ≤ nrow`. -/
def nr_seq_sample (nrow ncol : Nat) (neff sample_size : ℚ)
    (sample_ref : String) : Nat :=
  if 0 < sample_size then
    if sample_ref = "L" then
      let n := (Int.floor (sample_size * (ncol : ℚ))).toNat
      if nrow < n then nrow else n
    else
      max 10 (Int.floor (sample_size * neff)).toNat
  else nrow

/-- Embeds `self.gibbs_steps = np.max([gibbs_steps, 1])` (cd/__init__.py line 51);
this stored value is what `evaluate` passes to the sampler
(cd/__init__.py line 119). -/
def gibbs_steps_stored (gibbs_steps : ℤ) : ℤ := max gibbs_steps 1

/-- A raw parameter set as loaded from file: its column count and its
structured single/pair tensors (`ccmpred.raw.CCMRaw`). -/
structure RawParams (α : Type) where
  ncol : Nat
  x_single : Nat → Nat → α
  x_pair : Nat → Nat → Nat → Nat → α

/-- Embeds `PseudoLikelihood.init_from_raw` (pll/__init__.py lines 45-56): after
constructing the objective (which packs nothing), it raises on a column
count mismatch between the MSA and the raw parameter set, and otherwise
returns the packed vector `structured_to_linear(raw.x_single, raw.x_pair)`. -/
def init_from_raw {α : Type} [Zero α] (msa_ncol : Nat) (raw : RawParams α) :
    Except String (Nat → α) :=
  if msa_ncol ≠ raw.ncol then
    Except.error "Mismatching number of columns"
  else
    Except.ok (structured_to_linear raw.ncol raw.x_single raw.x_pair)

section APCDefs

variable {α : Type} [Field α]

/-- Embeds `mean = np.mean(cmat, axis=0)` (contactmatrix.py line 27): the mean over
rows of column `j` of an `n x n` matrix. -/
def colMean (n : Nat) (cmat : Nat → Nat → α) : Nat → α :=
  fun j => (∑ i in Finset.range n, cmat i j) / (n : α)

/-- Embeds `np.mean(cmat)` (contactmatrix.py line 28): the mean of all `n * n`
entries. -/
def overallMean (n : Nat) (cmat : Nat → Nat → α) : α :=
  (∑ i in Finset.range n, ∑ j in Finset.range n, cmat i j) / ((n : α) * (n : α))

/-- Embeds `apc(cmat)` (contactmatrix.py lines 18-30):
`cmat - mean[:, np.newaxis] * mean[np.newaxis, :] / np.mean(cmat)`. -/
def apc (n : Nat) (cmat : Nat → Nat → α) : Nat → Nat → α :=
  fun i j => cmat i j - colMean n cmat i * colMean n cmat j / overallMean n cmat

end APCDefs

/-- Constant-1 single-shaped rational tensor, for instantiations. -/
def ones2 : Nat → Nat → ℚ := fun _ _ => 1

/-- Constant-1 pair-shaped rational tensor, for instantiations. -/
def ones4 : Nat → Nat → Nat → Nat → ℚ := fun _ _ _ _ => 1

/-- Constant-0 single-shaped rational tensor, for instantiations. -/
def zeros2 : Nat → Nat → ℚ := fun _ _ => 0

/-- Constant-0 pair-shaped rational tensor, for instantiations. -/
def zeros4 : Nat → Nat → Nat → Nat → ℚ := fun _ _ _ _ => 0

/-- Empirical single frequencies putting all mass of column 0 on symbol 0
and none anywhere else; column 1 carries no mass.  Used to exhibit a
column-0 count deviation that the column-1 sanity check does not see. -/
def fsC : Nat → Nat → ℚ := fun i a => if i = 0 ∧ a = 0 then 1 else 0

/-- Concrete raw parameter set with 2 columns, for instantiations. -/
def raw0 : RawParams ℤ := ⟨2, xs0, xp0⟩

/-- Constant-1 square matrix, for instantiating the APC theorem. -/
def cone : Nat → Nat → ℚ := fun _ _ => 1

section CodecLemmas

variable {α : Type} [Zero α]

/-- Row-major flattening bound: a two-digit mixed-radix index stays below
the block size. -/
theorem encode_lt {x y A B : Nat} (hx : x < A) (hy : y < B) :
    x * B + y < A * B := by
  calc x * B + y < x * B + B := by omega
    _ = (x + 1) * B := by ring
    _ ≤ A * B := Nat.mul_le_mul_right B hx

/-- Quotient of a mixed-radix encoding recovers the high digit. -/
theorem enc_div {d r : Nat} (q : Nat) (hr : r < d) : (q * d + r) / d = q := by
  have hd : 0 < d := Nat.lt_of_le_of_lt (Nat.zero_le r) hr
  rw [Nat.mul_comm q d, Nat.mul_add_div hd, Nat.div_eq_of_lt hr, Nat.add_zero]

/-- Remainder of a mixed-radix encoding recovers the low digit. -/
theorem enc_mod {d r : Nat} (q : Nat) (hr : r < d) : (q * d + r) % d = r := by
  rw [Nat.mul_comm q d, Nat.mul_add_mod, Nat.mod_eq_of_lt hr]

/-- Reading the packed vector at the flat position of single cell `(i, a)`
returns `x_single[i, a]`. -/
theorem stl_single_value (ncol : Nat) (xs : Nat → Nat → α)
    (xp : Nat → Nat → Nat → Nat → α) {i a : Nat} (hi : i < ncol) (ha : a < 20) :
    structured_to_linear ncol xs xp (i * 20 + a) = xs i a := by
  have hk : i * 20 + a < nsingle ncol := encode_lt hi ha
  unfold structured_to_linear
  rw [if_pos hk, enc_div i ha, enc_mod i ha]

/-- Reading the packed vector inside the pair block at stored position
`[b, j, a, i]` returns `x_pair[i, j, a, b]`: the packing transposes the
logical axes `(i, j, a, b)` by the permutation `(3, 1, 2, 0)`. -/
theorem stl_pair_value (ncol : Nat) (xs : Nat → Nat → α)
    (xp : Nat → Nat → Nat → Nat → α) {i j a b : Nat}
    (hi : i < ncol) (hj : j < ncol) (ha : a < 21) (_hb : b < 21) :
    structured_to_linear ncol xs xp (nsingle_padded ncol + pairOffset ncol b j a i)
      = xp i j a b := by
  have hai : a * ncol + i < 32 * ncol := encode_lt (by omega) hi
  have hji : j * (32 * ncol) + (a * ncol + i) < ncol * (32 * ncol) := encode_lt hj hai
  have hoff : pairOffset ncol b j a i
      = b * (ncol * (32 * ncol)) + (j * (32 * ncol) + (a * ncol + i)) := by
    unfold pairOffset; ring
  have h1 : ¬ (nsingle_padded ncol + pairOffset ncol b j a i < nsingle ncol) := by
    unfold nsingle_padded; omega
  have h2 : ¬ (nsingle_padded ncol + pairOffset ncol b j a i < nsingle_padded ncol) := by
    omega
  unfold structured_to_linear
  rw [if_neg h1, if_neg h2]
  simp only [Nat.add_sub_cancel_left, hoff]
  rw [enc_div b hji, enc_mod b hji, enc_div j hai, enc_mod j hai,
    enc_div a hi, enc_mod a hi, if_pos ha]

end CodecLemmas

/-- C1: for every column count `L`, every `L x 20` single tensor and every
`L x L x 21 x 21` pair tensor (in particular those respecting the
diagonal-zero invariant), unpacking the packed vector produced by the padded
pseudo-likelihood codec recovers both tensors elementwise on the logical
region: `linear_to_structured(structured_to_linear(x_single, x_pair), L,
clip=True) == (x_single, x_pair)`. -/
theorem C1_roundtrip {α : Type} [Zero α] (ncol : Nat) (xs : Nat → Nat → α)
    (xp : Nat → Nat → Nat → Nat → α) :
    (∀ i a, i < ncol → a < 20 →
      lts_single (structured_to_linear ncol xs xp) i a = xs i a) ∧
    (∀ i j a b, i < ncol → j < ncol → a < 21 → b < 21 →
      lts_pair ncol (structured_to_linear ncol xs xp) i j a b = xp i j a b) := by
  constructor
  · intro i a hi ha
    exact stl_single_value ncol xs xp hi ha
  · intro i j a b hi hj ha hb
    exact stl_pair_value ncol xs xp hi hj ha hb

/-- Instantiation of `C1_roundtrip` at a concrete codec input. -/
theorem C1_roundtrip_witness :
    (0 : Nat) < 2 ∧ 5 < 20 ∧ 1 < 2 ∧ 0 < 21 ∧
    lts_single (structured_to_linear 2 xs0 xp0) 0 5 = xs0 0 5 ∧
    lts_pair 2 (structured_to_linear 2 xs0 xp0) 0 1 0 0 = xp0 0 1 0 0 :=
  ⟨by decide, by decide, by decide, by decide,
   (C1_roundtrip 2 xs0 xp0).1 0 5 (by decide) (by decide),
   (C1_roundtrip 2 xs0 xp0).2 0 1 0 0 (by decide) (by decide) (by decide)
     (by decide)⟩

/-- C3 counterexample: at `L = 8`, `L * 20 = 160` is already a multiple of
32, yet the code pads the single block to 192, not 160 — so the padded
length is not the smallest multiple of 32 that is `≥ L * 20`. -/
theorem C3_counterexample :
    nsingle 8 = 160 ∧ nsingle 8 % 32 = 0 ∧ nsingle_padded 8 = 192 ∧
    nsingle_padded 8 ≠ nsingle 8 := by decide

/-- C3 (amended): for every column count `L`, the padded single-block length
is the smallest multiple of 32 that is strictly greater than `L * 20`; in
particular, when `L * 20` is already a multiple of 32, a full extra block of
32 padding cells is added. -/
theorem C3_amended (L : Nat) :
    nsingle L < nsingle_padded L ∧ nsingle_padded L ≤ nsingle L + 32 ∧
    nsingle_padded L % 32 = 0 := by
  unfold nsingle_padded nsingle
  omega

/-- C4 counterexample: with `L = 2` and a pair tensor holding a single 1 at
logical position `(i, j, a, b) = (0, 1, 0, 0)`, the packed pair block at
stored index `[b, i, a, j] = [0, 0, 0, 1]` does not hold
`x_pair[0, 1, 0, 0]` — the code stores `x_pair[j, i, a, b]` there instead. -/
theorem C4_counterexample :
    structured_to_linear 2 xs0 xp0 (nsingle_padded 2 + pairOffset 2 0 0 0 1)
      ≠ xp0 0 1 0 0 := by decide

/-- C4 (amended): the padded codec stores the pair block with axis order
(symbol-b, column-j, padded-symbol-a, column-i): the logical element
`x_pair[i, j, a, b]` is placed at stored index `[b, j, a, i]` of the packed
pair block. -/
theorem C4_amended {α : Type} [Zero α] (ncol : Nat) (xs : Nat → Nat → α)
    (xp : Nat → Nat → Nat → Nat → α) (i j a b : Nat)
    (hi : i < ncol) (hj : j < ncol) (ha : a < 21) (hb : b < 21) :
    structured_to_linear ncol xs xp (nsingle_padded ncol + pairOffset ncol b j a i)
      = xp i j a b :=
  stl_pair_value ncol xs xp hi hj ha hb

/-- Instantiation of `C4_amended` at a concrete codec input. -/
theorem C4_amended_witness :
    (0 : Nat) < 2 ∧ 1 < 2 ∧ 0 < 21 ∧
    structured_to_linear 2 xs0 xp0 (nsingle_padded 2 + pairOffset 2 0 1 0 0)
      = xp0 0 1 0 0 :=
  ⟨by decide, by decide, by decide,
   C4_amended 2 xs0 xp0 0 1 0 0 (by decide) (by decide) (by decide) (by decide)⟩

/-- C2: code bug — with `sample_ref` other than `"L"` (the Neff-referenced
configuration) the subsample size `max(10, int(sample_size * neff))` is not
clamped to the row count: at `nrow = 5`, `ncol = 3`, `neff = 5`,
`sample_size = 2`, `sample_ref = "neff"` the code asks for 10 rows out of 5,
so `np.random.choice(5, 10, replace=False)` in `init_sample_alignment`
cannot succeed. -/
theorem C2_unclamped_sample_size :
    nr_seq_sample 5 3 5 2 "neff" = 10 ∧ 5 < nr_seq_sample 5 3 5 2 "neff" := by
  have h : nr_seq_sample 5 3 5 2 "neff" = 10 := by
    unfold nr_seq_sample
    norm_num
    decide
  exact ⟨h, by omega⟩

/-- C5: after every `evaluate` call of the contrastive-divergence objective,
every gap-state entry (symbol index 20) of the single and pair gradients is
exactly zero, and every diagonal pair block `g_pair[i, i, :, :]` is exactly
zero, for every alignment statistic, sampler outcome and parameter input. -/
theorem C5_zero_invariants {α : Type} [LinearOrderedField α] (ncol : Nat)
    (fs : Nat → Nat → α) (fp : Nat → Nat → Nat → Nat → α) (neff : α)
    (sfs : Nat → Nat → α) (sfp : Nat → Nat → Nat → Nat → α)
    (grs : Nat → Nat → α) (grp : Nat → Nat → Nat → Nat → α)
    (i j a b : Nat) (hi : i < ncol) :
    (cd_evaluate ncol fs fp neff sfs sfp grs grp).g_single i 20 = 0 ∧
    (cd_evaluate ncol fs fp neff sfs sfp grs grp).g_pair i j 20 b = 0 ∧
    (cd_evaluate ncol fs fp neff sfs sfp grs grp).g_pair i j a 20 = 0 ∧
    (cd_evaluate ncol fs fp neff sfs sfp grs grp).g_pair i i a b = 0 := by
  refine ⟨?_, ?_, ?_, ?_⟩ <;>
    simp [cd_evaluate, cd_g_single, cd_g_pair, zeroGapSingle, zeroGapPairA,
      zeroGapPairB, zeroDiagPair, hi]

/-- Instantiation of `C5_zero_invariants` at a concrete evaluation. -/
theorem C5_zero_invariants_witness :
    (0 : Nat) < 2 ∧
    ((cd_evaluate 2 ones2 ones4 1 ones2 ones4 zeros2 zeros4).g_single 0 20 = 0 ∧
     (cd_evaluate 2 ones2 ones4 1 ones2 ones4 zeros2 zeros4).g_pair 0 1 20 4 = 0 ∧
     (cd_evaluate 2 ones2 ones4 1 ones2 ones4 zeros2 zeros4).g_pair 0 1 3 20 = 0 ∧
     (cd_evaluate 2 ones2 ones4 1 ones2 ones4 zeros2 zeros4).g_pair 0 0 3 4 = 0) :=
  ⟨by decide,
   C5_zero_invariants 2 ones2 ones4 1 ones2 ones4 zeros2 zeros4 0 1 3 4 (by decide)⟩

/-- C6: `PseudoLikelihood.init_from_raw` fails exactly when the loaded raw
parameter set column count differs from the alignment column count; on a
match it returns the packed vector, on a mismatch it returns an error and no
packed vector. -/
theorem C6_init_from_raw_mismatch {α : Type} [Zero α] (msa_ncol : Nat)
    (raw : RawParams α) :
    ((∃ v, init_from_raw msa_ncol raw = Except.ok v) ↔ msa_ncol = raw.ncol) ∧
    (msa_ncol = raw.ncol →
      init_from_raw msa_ncol raw
        = Except.ok (structured_to_linear raw.ncol raw.x_single raw.x_pair)) ∧
    (msa_ncol ≠ raw.ncol →
      init_from_raw msa_ncol raw
        = Except.error "Mismatching number of columns") := by
  unfold init_from_raw
  by_cases h : msa_ncol = raw.ncol <;> simp [h]

/-- Instantiation of `C6_init_from_raw_mismatch` on both sides of the
column-count check. -/
theorem C6_init_from_raw_witness :
    (2 = raw0.ncol ∧
      init_from_raw 2 raw0
        = Except.ok (structured_to_linear raw0.ncol raw0.x_single raw0.x_pair)) ∧
    (3 ≠ raw0.ncol ∧
      init_from_raw 3 raw0 = Except.error "Mismatching number of columns") :=
  ⟨⟨rfl, (C6_init_from_raw_mismatch 2 raw0).2.1 rfl⟩,
   ⟨by decide, (C6_init_from_raw_mismatch 3 raw0).2.2 (by decide)⟩⟩

/-- C7 counterexample: an evaluation whose column-0 total sampled
amino-acid count deviates from the empirical one by 1 (far beyond the
1e-5 tolerance) while the spot-check column 1 matches exactly — no warning
is emitted, refuting "for every column whose total deviates, a warning is
emitted". -/
theorem C7_counterexample :
    (1 : ℚ) / 100000 <
      |(∑ a in Finset.range 20,
          sample_counts_single zeros2 (Ni (msa_counts_single fsC 1)) 0 a)
        - ∑ a in Finset.range 20, msa_counts_single fsC 1 0 a| ∧
    (cd_evaluate 2 fsC zeros4 1 zeros2 zeros4 zeros2 zeros4).warning = false := by
  constructor
  · norm_num [sample_counts_single, zeros2, msa_counts_single, zeroGapSingle,
      fsC, Finset.sum_range_succ]
  · norm_num [cd_evaluate, cd_warning, sample_counts_single, zeros2,
      msa_counts_single, zeroGapSingle, fsC, Finset.sum_range_succ]

/-- C7 (amended): the sanity check inspects only the fixed spot-check
column with index 1: during every contrastive-divergence `evaluate` call a
warning is emitted if and only if the total sampled amino-acid count of
column 1 deviates from the empirical count of column 1 by more than the numeric tolerance
1e-5; the deviation is never fatal — the evaluation completes and returns
its gradients and the sentinel value regardless of the warning. -/
theorem C7_spot_check_column_one {α : Type} [LinearOrderedField α] (ncol : Nat)
    (fs : Nat → Nat → α) (fp : Nat → Nat → Nat → Nat → α) (neff : α)
    (sfs : Nat → Nat → α) (sfp : Nat → Nat → Nat → Nat → α)
    (grs : Nat → Nat → α) (grp : Nat → Nat → Nat → Nat → α) :
    ((cd_evaluate ncol fs fp neff sfs sfp grs grp).warning = true ↔
      (1 : α) / 100000 <
        |(∑ a in Finset.range 20,
            sample_counts_single sfs (Ni (msa_counts_single fs neff)) 1 a)
          - ∑ a in Finset.range 20, msa_counts_single fs neff 1 a|) ∧
    (cd_evaluate ncol fs fp neff sfs sfp grs grp).g_single
      = cd_g_single (sample_counts_single sfs (Ni (msa_counts_single fs neff)))
          (msa_counts_single fs neff) ∧
    (cd_evaluate ncol fs fp neff sfs sfp grs grp).g_pair
      = cd_g_pair ncol
          (sample_counts_pair sfp (Nij (msa_counts_pair fp neff)))
          (msa_counts_pair fp neff) ∧
    (cd_evaluate ncol fs fp neff sfs sfp grs grp).value = -1 := by
  refine ⟨?_, rfl, rfl, rfl⟩
  simp [cd_evaluate, cd_warning]

/-- C8: every `evaluate` call of the contrastive-divergence objective
returns the fixed sentinel `-1` as its objective value, whatever the
alignment statistics, sampler outcome and parameters are. -/
theorem C8_sentinel_value {α : Type} [LinearOrderedField α] (ncol : Nat)
    (fs : Nat → Nat → α) (fp : Nat → Nat → Nat → Nat → α) (neff : α)
    (sfs : Nat → Nat → α) (sfp : Nat → Nat → Nat → Nat → α)
    (grs : Nat → Nat → α) (grp : Nat → Nat → Nat → Nat → α) :
    (cd_evaluate ncol fs fp neff sfs sfp grs grp).value = -1 := rfl

/-- C9: the Gibbs-sweep count stored at construction (and passed to the
sampler by `evaluate`) is `max(gibbs_steps, 1)`, hence always at least 1 —
in particular a caller-supplied 0 is clamped up to 1. -/
theorem C9_gibbs_steps_clamped (gibbs_steps : ℤ) :
    gibbs_steps_stored gibbs_steps = max gibbs_steps 1 ∧
    1 ≤ gibbs_steps_stored gibbs_steps ∧
    gibbs_steps_stored 0 = 1 :=
  ⟨rfl, le_max_right gibbs_steps 1, rfl⟩

/-- C10: for every square contact matrix over a field (in particular over
the reals) whose overall mean is nonzero, the entries of the
average-product-corrected matrix `apc(cmat)` sum to exactly zero: the
subtracted correction term has the same total mass as the input matrix. -/
theorem C10_apc_sum_zero {α : Type} [Field α] (n : Nat) (cmat : Nat → Nat → α)
    (h : overallMean n cmat ≠ 0) :
    ∑ i in Finset.range n, ∑ j in Finset.range n, apc n cmat i j = 0 := by
  have hdiv := h
  unfold overallMean at hdiv
  obtain ⟨hS, hnn⟩ := div_ne_zero_iff.mp hdiv
  have hn0 : (n : α) ≠ 0 := fun h0 => hnn (by rw [h0, zero_mul])
  have hsum : ∑ j in Finset.range n, colMean n cmat j
      = (∑ i in Finset.range n, ∑ j in Finset.range n, cmat i j) / (n : α) := by
    unfold colMean
    rw [← Finset.sum_div]
    congr 1
    exact Finset.sum_comm
  have hfact : ∑ i in Finset.range n, ∑ j in Finset.range n,
      colMean n cmat i * colMean n cmat j / overallMean n cmat
      = (∑ i in Finset.range n, colMean n cmat i) *
        (∑ j in Finset.range n, colMean n cmat j) / overallMean n cmat := by
    calc ∑ i in Finset.range n, ∑ j in Finset.range n,
          colMean n cmat i * colMean n cmat j / overallMean n cmat
        = ∑ i in Finset.range n,
            colMean n cmat i * (∑ j in Finset.range n, colMean n cmat j)
              / overallMean n cmat := by
          refine Finset.sum_congr rfl fun i _ => ?_
          rw [← Finset.sum_div, ← Finset.mul_sum]
      _ = (∑ i in Finset.range n, colMean n cmat i) *
            (∑ j in Finset.range n, colMean n cmat j) / overallMean n cmat := by
          rw [← Finset.sum_div, ← Finset.sum_mul]
  unfold apc
  simp only [Finset.sum_sub_distrib]
  rw [hfact, hsum]
  unfold overallMean
  field_simp

/-- Instantiation of `C10_apc_sum_zero` at the all-ones 1 x 1 matrix. -/
theorem C10_apc_sum_zero_witness :
    overallMean 1 cone ≠ 0 ∧
    ∑ i in Finset.range 1, ∑ j in Finset.range 1, apc 1 cone i j = 0 :=
  ⟨by norm_num [overallMean, cone],
   C10_apc_sum_zero 1 cone (by norm_num [overallMean, cone])⟩
